import Mathlib

/-!
Verification development for the ABAP Analyzer MCP server
(`.kiro/mcp/abap-analyzer.py`): a shallow embedding of the analyzer's
regular-expression extraction passes, the SAP pattern detector, the code
generators, the validator, and the request-dispatch loop, together with
theorems about the specified behaviour.

Conventions of the embedding:
* Python strings are Lean `String`s; scanning works over `String.data`.
* `re.finditer`/`re.search` over the fixed patterns of the source are
  realised by a small backtracking engine (`RE`, `matchRE`, `finditer`)
  whose alternative order mirrors the Python engine: greedy quantifiers
  try longest first, the single lazy quantifier (`.*?`) shortest first,
  scanning is leftmost and non-overlapping.  Character classes `\w`, `\s`
  are taken over ASCII.
* JSON values are the inductive `Json`; `dict.get` and truthiness are
  modelled by `jlookup` / `jsonTruthy`.
* Python exceptions are `Except String`: a handler-internal exception is
  caught by `handle_mcp_request`'s `try` and becomes an error response,
  an exception before that `try` (a non-dict request) propagates to the
  stdio loop.  Exception message texts that the program never inspects
  are modelled by fixed descriptive strings.
-/

/-- JSON values, as produced by `json.loads` / consumed by `json.dumps`.
Numbers are restricted to integers; object member order is insertion
order, as in Python dicts. -/
inductive Json where
  | null : Json
  | bool : Bool → Json
  | num : Int → Json
  | str : String → Json
  | arr : List Json → Json
  | obj : List (String × Json) → Json

/-- Python `\s` (ASCII part): space, tab, newline, carriage return,
vertical tab, form feed. -/
def isSpaceChar (c : Char) : Bool :=
  c = ' ' || c = '\t' || c = '\n' || c = '\r' || c = '\x0b' || c = '\x0c'

/-- Python `\w` (ASCII part): letters, digits, underscore. -/
def isWordChar (c : Char) : Bool :=
  c.isAlphanum || c = '_'

/-- The class `[\w\(\)]` used by the DATA-declaration pattern. -/
def isTypeChar (c : Char) : Bool :=
  isWordChar c || c = '(' || c = ')'

/-- The class matched by `.` under `re.DOTALL`. -/
def anyChar (_ : Char) : Bool := true

/-- The class `[^.]` used by the IF-condition pattern. -/
def nonDot (c : Char) : Bool := c ≠ '.'

/-- The single-quote character (code 39), written via `Char.ofNat`. -/
def quoteChar : Char := Char.ofNat 39

/-- Python `str.strip` on a character list: drop leading whitespace,
then trailing whitespace. -/
def pyStripL (l : List Char) : List Char :=
  (l.dropWhile isSpaceChar).rdropWhile isSpaceChar

/-- Python `str.strip`. -/
def pyStrip (s : String) : String := String.mk (pyStripL s.data)

/-- Python `str.upper` (ASCII, character-wise). -/
def strUpper (s : String) : String := String.mk (s.data.map Char.toUpper)

/-- Python `str.lower` (ASCII, character-wise). -/
def strLower (s : String) : String := String.mk (s.data.map Char.toLower)

/-- Python `str.startswith` (case-sensitive). -/
def pyStartsWith (pre s : String) : Bool :=
  go pre.data s.data
where
  go : List Char → List Char → Bool
    | [], _ => true
    | _ :: _, [] => false
    | a :: u, b :: v => a = b && go u v

/-- Python `str.split('\n')` on the character level. -/
def splitLinesL : List Char → List (List Char)
  | [] => [[]]
  | c :: rest =>
    match splitLinesL rest with
    | [] => [[]]
    | h :: t => if c = '\n' then [] :: h :: t else (c :: h) :: t

/-- Python `str.split('\n')`. -/
def pySplitNL (s : String) : List String := (splitLinesL s.data).map String.mk

/-- Regular-expression fragment covering exactly the constructs used by
the analyzer's patterns: case-insensitive literals, character classes,
sequencing, greedy `+` and `*` over a class, lazy `*` over a class, and
numbered capture groups. -/
inductive RE where
  | eps : RE
  | lit : Char → RE
  | seq : RE → RE → RE
  | plusG : (Char → Bool) → RE
  | starG : (Char → Bool) → RE
  | starL : (Char → Bool) → RE
  | grp : Nat → RE → RE

/-- All ways a pattern can match a prefix of `s`, in the backtracking
engine's preference order; each result carries the captured groups and
the remaining suffix.  Literals compare case-insensitively, mirroring
`re.IGNORECASE`; greedy quantifiers yield longest first, the lazy
quantifier shortest first. -/
def matchRE : RE → List Char → List (List (Nat × List Char) × List Char)
  | .eps, s => [([], s)]
  | .lit c, s =>
    match s with
    | [] => []
    | x :: xs => if x.toLower = c.toLower then [([], xs)] else []
  | .seq r1 r2, s =>
    (matchRE r1 s).flatMap (fun pr =>
      (matchRE r2 pr.2).map (fun qr => (pr.1 ++ qr.1, qr.2)))
  | .plusG p, s =>
    let n := (s.takeWhile p).length
    (List.range n).map (fun i => ([], s.drop (n - i)))
  | .starG p, s =>
    let n := (s.takeWhile p).length
    (List.range (n + 1)).map (fun i => ([], s.drop (n - i)))
  | .starL p, s =>
    let n := (s.takeWhile p).length
    (List.range (n + 1)).map (fun i => ([], s.drop i))
  | .grp i r, s =>
    (matchRE r s).map (fun pr => (pr.1 ++ [(i, s.take (s.length - pr.2.length))], pr.2))

/-- One `re.Match`: the matched text (`group(0)`) and the captures. -/
structure MatchRes where
  whole : List Char
  caps : List (Nat × List Char)
deriving DecidableEq

/-- Capture group `i` of a match, as a string (empty if absent). -/
def cap (m : MatchRes) (i : Nat) : String :=
  ((m.caps.lookup i).map String.mk).getD ""

/-- The engine's preferred match of `r` at the start of `s`, with the
number of characters consumed. -/
def reFirst (r : RE) (s : List Char) : Option (MatchRes × Nat) :=
  match matchRE r s with
  | [] => none
  | pr :: _ => some (⟨s.take (s.length - pr.2.length), pr.1⟩, s.length - pr.2.length)

/-- Fuelled scanning loop of `re.finditer`: leftmost match, continue
after its end (advancing at least one character), non-overlapping. -/
def finditerGo (r : RE) : Nat → List Char → List MatchRes
  | 0, _ => []
  | fuel + 1, s =>
    match reFirst r s with
    | some (m, k) =>
      match s with
      | [] => [m]
      | _ :: _ => m :: finditerGo r fuel (s.drop (max k 1))
    | none =>
      match s with
      | [] => []
      | _ :: rest => finditerGo r fuel rest

/-- `re.finditer(pattern, code, re.IGNORECASE ...)` for the embedded
patterns. -/
def finditer (r : RE) (code : String) : List MatchRes :=
  finditerGo r (code.length + 1) code.data

/-- A case-insensitive literal string, as a sequence of literals. -/
def litStr (s : String) : RE :=
  s.data.foldr (fun c r => RE.seq (RE.lit c) r) RE.eps

/-- Pattern `SELECT\s+(?P<fields>.*?)\s+FROM\s+(?P<table>\w+)` with
`re.IGNORECASE | re.DOTALL`; group 0 is `fields`, group 1 is `table`. -/
def selectRE : RE :=
  .seq (litStr "SELECT") (.seq (.plusG isSpaceChar)
    (.seq (.grp 0 (.starL anyChar)) (.seq (.plusG isSpaceChar)
      (.seq (litStr "FROM") (.seq (.plusG isSpaceChar)
        (.grp 1 (.plusG isWordChar)))))))

/-- Pattern `{op_type}\s+(?P<table>\w+)` for INSERT/UPDATE/MODIFY;
group 0 is `table`. -/
def opRE (op_type : String) : RE :=
  .seq (litStr op_type) (.seq (.plusG isSpaceChar) (.grp 0 (.plusG isWordChar)))

/-- Pattern `DATA:\s*(?P<name>\w+)\s+TYPE\s+(?P<type>[\w\(\)]+)`;
group 0 is `name`, group 1 is `type`. -/
def dataRE : RE :=
  .seq (litStr "DATA:") (.seq (.starG isSpaceChar)
    (.seq (.grp 0 (.plusG isWordChar)) (.seq (.plusG isSpaceChar)
      (.seq (litStr "TYPE") (.seq (.plusG isSpaceChar)
        (.grp 1 (.plusG isTypeChar)))))))

/-- Pattern `CALL\s+FUNCTION\s+'(?P<name>[\w_]+)'`; group 0 is `name`. -/
def callFuncRE : RE :=
  .seq (litStr "CALL") (.seq (.plusG isSpaceChar)
    (.seq (litStr "FUNCTION") (.seq (.plusG isSpaceChar)
      (.seq (.lit quoteChar) (.seq (.grp 0 (.plusG isWordChar)) (.lit quoteChar))))))

/-- Pattern `FUNCTION\s+(?P<name>[\w_]+)`; group 0 is `name`. -/
def funcDefRE : RE :=
  .seq (litStr "FUNCTION") (.seq (.plusG isSpaceChar) (.grp 0 (.plusG isWordChar)))

/-- Pattern `IF\s+(?P<condition>[^.]+)\.`; group 0 is `condition`. -/
def ifRE : RE :=
  .seq (litStr "IF") (.seq (.plusG isSpaceChar)
    (.seq (.grp 0 (.plusG nonDot)) (.lit '.')))

/-- Pattern `CASE\s+(?P<variable>\w+)`; group 0 is `variable`. -/
def caseRE : RE :=
  .seq (litStr "CASE") (.seq (.plusG isSpaceChar) (.grp 0 (.plusG isWordChar)))

/-- Pattern `LOOP\s+AT\s+(?P<table>\w+)`; group 0 is `table`. -/
def loopRE : RE :=
  .seq (litStr "LOOP") (.seq (.plusG isSpaceChar)
    (.seq (litStr "AT") (.seq (.plusG isSpaceChar) (.grp 0 (.plusG isWordChar)))))

/-! ### The analyzer's lookup tables and record types -/

/-- `ABAPAnalyzer.SAP_TABLES`, in dict insertion order. -/
def SAP_TABLES : List (String × String) :=
  [("VBAK", "Sales Document Header"),
   ("VBAP", "Sales Document Items"),
   ("KNA1", "Customer Master"),
   ("MARA", "Material Master"),
   ("BKPF", "Accounting Document Header"),
   ("BSEG", "Accounting Document Line Items"),
   ("LFA1", "Vendor Master"),
   ("EKKO", "Purchase Order Header")]

/-- `ABAPAnalyzer.BAPI_PATTERNS`, in dict insertion order; the patterns
are plain literals, so `re.search` on them is a substring test. -/
def BAPI_PATTERNS : List (String × String) :=
  [("BAPI_SALESORDER", "Sales Order Management"),
   ("BAPI_CUSTOMER", "Customer Master Management"),
   ("BAPI_MATERIAL", "Material Master Management"),
   ("BAPI_PO", "Purchase Order Management")]

/-- `self.SAP_TABLES.get(table, dflt)`. -/
def sapTableGet (table : String) (dflt : String) : String :=
  (List.lookup table SAP_TABLES).getD dflt

/-- One record of `_extract_database_operations`: the Python dict keys
`type`, `table`, `sap_table_description` and (for SELECT only) `fields`. -/
structure DbOp where
  typ : String
  table : String
  sap_table_description : String
  fields : Option String
deriving DecidableEq

/-- One record of `_extract_variables`: keys `name`, `abap_type`,
`modern_type`. -/
structure VarDecl where
  name : String
  abap_type : String
  modern_type : String
deriving DecidableEq

/-- One record of `_extract_functions`: keys `name`, `type` and, for
call records only, `is_bapi` and `description`. -/
structure FuncRec where
  name : String
  typ : String
  is_bapi : Option Bool
  description : Option String
deriving DecidableEq

/-- One record of `_extract_business_logic`: keys `type`, `pattern` and
one of `condition` / `variable` / `table`, held in `value`. -/
structure LogicRec where
  typ : String
  patt : String
  value : String
deriving DecidableEq

/-! ### Extraction passes (`_extract_*`, `_convert_abap_type`) -/

/-- The three-record builder of the INSERT/UPDATE/MODIFY loop body in
`_extract_database_operations`. -/
def db_op_records (op_type : String) (code : String) : List DbOp :=
  (finditer (opRE op_type) code).map (fun m =>
    { typ := op_type, table := cap m 0,
      sap_table_description := sapTableGet (strUpper (cap m 0)) "Unknown",
      fields := none })

/-- `ABAPAnalyzer._extract_database_operations`: all SELECT records in
text order, then the records of the `['INSERT', 'UPDATE', 'MODIFY']`
loop (unrolled), mirroring the append order of the Python loops. -/
def extract_database_operations (code : String) : List DbOp :=
  ((finditer selectRE code).map (fun m =>
    { typ := "SELECT", table := cap m 1,
      sap_table_description := sapTableGet (strUpper (cap m 1)) "Unknown",
      fields := some (pyStrip (cap m 0)) }))
  ++ db_op_records "INSERT" code
  ++ db_op_records "UPDATE" code
  ++ db_op_records "MODIFY" code

/-- The `type_map` of `_convert_abap_type`, in dict insertion order. -/
def type_map : List (String × String) :=
  [("i", "number"), ("string", "string"), ("char", "string"),
   ("p", "number"), ("f", "number"), ("kunnr", "string"), ("vbeln", "string")]

/-- Exact prefix comparison of character lists. -/
def prefixEqL : List Char → List Char → Bool
  | [], _ => true
  | _ :: _, [] => false
  | a :: u, b :: v => a = b && prefixEqL u v

/-- Exact infix (contiguous sublist) test on character lists. -/
def infixOfL (n : List Char) : List Char → Bool
  | [] => prefixEqL n []
  | c :: t => prefixEqL n (c :: t) || infixOfL n t

/-- Python `needle in haystack` on strings. -/
def substrOf (needle haystack : String) : Bool :=
  infixOfL needle.data haystack.data

/-- The lookup loop of `_convert_abap_type`: first fragment that occurs
in the lower-cased type token wins. -/
def convert_abap_type_go (abap_type : String) : List (String × String) → String
  | [] => "any"
  | (ab, ts) :: rest =>
    if substrOf ab (strLower abap_type) then ts else convert_abap_type_go abap_type rest

/-- `ABAPAnalyzer._convert_abap_type`. -/
def convert_abap_type (abap_type : String) : String :=
  convert_abap_type_go abap_type type_map

/-- `ABAPAnalyzer._extract_variables`. -/
def extract_variables (code : String) : List VarDecl :=
  (finditer dataRE code).map (fun m =>
    { name := cap m 0, abap_type := cap m 1,
      modern_type := convert_abap_type (cap m 1) })

/-- `ABAPAnalyzer._describe_function`. -/
def describe_function (func_name : String) : String :=
  if pyStartsWith "BAPI_SALESORDER" func_name then "Sales Order Management BAPI"
  else if pyStartsWith "BAPI_" func_name then "Standard SAP Business API"
  else "Custom Function Module"

/-- `ABAPAnalyzer._extract_functions`: CALL FUNCTION records, then
FUNCTION definition records (whose `group(0)` filter against a `CALL`
prefix is kept as written, though it never rejects a match). -/
def extract_functions (code : String) : List FuncRec :=
  ((finditer callFuncRE code).map (fun m =>
    { name := cap m 0, typ := "call",
      is_bapi := some (pyStartsWith "BAPI_" (cap m 0)),
      description := some (describe_function (cap m 0)) }))
  ++ ((finditer funcDefRE code).filterMap (fun m =>
    if pyStartsWith "CALL" (String.mk m.whole) then none
    else some { name := cap m 0, typ := "definition", is_bapi := none, description := none }))

/-- `ABAPAnalyzer._extract_business_logic`: IF validation records, then
CASE branching records, then LOOP AT iteration records. -/
def extract_business_logic (code : String) : List LogicRec :=
  ((finditer ifRE code).map (fun m =>
    { typ := "validation", patt := "IF condition", value := pyStrip (cap m 0) }))
  ++ ((finditer caseRE code).map (fun m =>
    { typ := "branching", patt := "CASE", value := cap m 0 }))
  ++ ((finditer loopRE code).map (fun m =>
    { typ := "iteration", patt := "LOOP", value := cap m 0 }))

/-! ### SAP pattern detection (`detect_sap_patterns`) -/

/-- Case-insensitive substring test, i.e. `re.search` of a literal
pattern under `re.IGNORECASE`. -/
def containsCI (needle haystack : String) : Bool :=
  infixOfL (strLower needle).data (strLower haystack).data

/-- Case-insensitive prefix comparison of character lists. -/
def matchPrefixCI : List Char → List Char → Bool
  | [], _ => true
  | _ :: _, [] => false
  | a :: u, b :: v => a.toLower = b.toLower && matchPrefixCI u v

/-- Whether an optional preceding/following character is a word-boundary
side (absent or a non-word character). -/
def isNonWord : Option Char → Bool
  | none => true
  | some c => !(isWordChar c)

/-- Scanning loop for `re.search(rf'\b{w}\b', code, re.IGNORECASE)` with
`w` made of word characters: some position matches `w` case-insensitively
with non-word (or absent) characters on both sides. -/
def containsWordCIGo (w : List Char) : Option Char → List Char → Bool
  | _, [] => false
  | prev, c :: rest =>
    (isNonWord prev && matchPrefixCI w (c :: rest)
      && isNonWord ((c :: rest).drop w.length).head?)
    || containsWordCIGo w (some c) rest

/-- `re.search(rf'\b{w}\b', code, re.IGNORECASE)` as a Boolean. -/
def containsWordCI (w code : String) : Bool :=
  containsWordCIGo w.data none code.data

/-- The result dict of `detect_sap_patterns`.  `modules` is built as a
Python `set` and listed; the embedding lists it deduplicated (iteration
order of a Python `set` is unspecified, and no theorem below depends on
the order of `modules`). -/
structure SapPatterns where
  bapis : List (String × String)
  tables : List (String × String)
  modules : List String
  pricing_logic : Bool
  authorization_checks : Bool
deriving DecidableEq

/-- `ABAPAnalyzer._get_module_from_table`: two-letter upper-cased prefix
lookup in `module_map`, empty string when absent. -/
def get_module_from_table (table : String) : String :=
  let module_map : List (String × String) :=
    [("VB", "SD"), ("KN", "SD"), ("MA", "MM"), ("EK", "MM"),
     ("BK", "FI"), ("BS", "FI"), ("LF", "MM")]
  (List.lookup (strUpper (String.mk (table.data.take 2))) module_map).getD ""

/-- `ABAPAnalyzer.detect_sap_patterns`. -/
def detect_sap_patterns (code : String) : SapPatterns :=
  let bapis := BAPI_PATTERNS.filter (fun p => containsCI p.1 code)
  let tables := SAP_TABLES.filter (fun p => containsWordCI p.1 code)
  let modules :=
    ((tables.map (fun p => get_module_from_table p.1)).filter (fun m => m ≠ "")).dedup
  { bapis := bapis, tables := tables, modules := modules,
    pricing_logic :=
      containsCI "condition" code || containsCI "pricing" code
        || containsCI "discount" code || containsCI "kbetr" code,
    authorization_checks := containsCI "AUTHORITY-CHECK" code }

/-! ### Code generators, validator, data-model extractor, `parse_abap` -/

/-- Python truthiness of a JSON value (used by `if preserve_comments:`). -/
def jsonTruthy : Json → Bool
  | .null => false
  | .bool b => b
  | .num n => n ≠ 0
  | .str s => s ≠ ""
  | .arr l => !l.isEmpty
  | .obj l => !l.isEmpty

/-- Python `==` between a JSON value and a string literal. -/
def jeqStr (j : Json) (s : String) : Bool :=
  match j with
  | .str t => t = s
  | _ => false

/-- `ABAPAnalyzer._generate_typescript`: optional banner, one `let` line
per extracted variable, one data-access line per SELECT/INSERT
operation, joined with newlines. -/
def generate_typescript (abap_code : String) (preserve_comments : Json) : String :=
  let output1 : List String :=
    if jsonTruthy preserve_comments then ["// Transformed from ABAP by Kiro", ""] else []
  let vs := extract_variables abap_code
  let output2 : List String :=
    if vs.isEmpty then []
    else ["// Variable declarations"]
      ++ vs.map (fun v => "let " ++ v.name ++ ": " ++ v.modern_type ++ ";")
      ++ [""]
  let db_ops := extract_database_operations abap_code
  let output3 : List String :=
    if db_ops.isEmpty then []
    else ["// Database operations"]
      ++ db_ops.filterMap (fun op =>
        if op.typ = "SELECT" then
          some ("const data = await db." ++ strLower op.table ++ ".findMany();")
        else if op.typ = "INSERT" then
          some ("await db." ++ strLower op.table ++ ".create(\x7b data: \x7b\x7d \x7d);")
        else none)
      ++ [""]
  String.intercalate "\n" (output1 ++ output2 ++ output3)

/-- `ABAPAnalyzer._generate_python`: optional banner plus a fixed
placeholder line; the ABAP input is ignored. -/
def generate_python (_abap_code : String) (preserve_comments : Json) : String :=
  let output1 : List String :=
    if jsonTruthy preserve_comments then ["# Transformed from ABAP by Kiro", ""] else []
  String.intercalate "\n" (output1 ++ ["# Python transformation coming soon"])

/-- `ABAPAnalyzer.generate_modern_equivalent`. -/
def generate_modern_equivalent (abap_code : String) (target_language : Json)
    (preserve_comments : Json) : String :=
  if jeqStr target_language "typescript" then generate_typescript abap_code preserve_comments
  else if jeqStr target_language "python" then generate_python abap_code preserve_comments
  else "// Unsupported target language"

/-- One entry of `validation['checks']`. -/
structure Check where
  typ : String
  abap_count : Nat
  modern_count : Nat
  status : String
deriving DecidableEq

/-- The result dict of `validate_business_logic`. -/
structure Validation where
  status : String
  checks : List Check
  warnings : List String
  preserved_logic_count : Nat
deriving DecidableEq

/-- Counting loop for `len(re.findall(r'\bif\b', s, re.IGNORECASE))`:
occurrences of the two-letter token `if` with non-word (or absent)
neighbours.  Such occurrences cannot overlap, so counting positions
equals counting `findall` matches. -/
def countIfGo : Option Char → List Char → Nat
  | _, [] => 0
  | prev, c :: rest =>
    (if isNonWord prev && matchPrefixCI ['i', 'f'] (c :: rest)
        && isNonWord ((c :: rest).drop 2).head? then 1 else 0)
    + countIfGo (some c) rest

/-- `len(re.findall(r'\bif\b', s, re.IGNORECASE))`. -/
def count_if_tokens (s : String) : Nat := countIfGo none s.data

/-- `ABAPAnalyzer.validate_business_logic`. -/
def validate_business_logic (original_abap modern_code : String) : Validation :=
  let abap_logic := extract_business_logic original_abap
  let abap_ifs := (abap_logic.filter (fun l => l.typ = "validation")).length
  let modern_ifs := count_if_tokens modern_code
  { status := "validated",
    checks := [{ typ := "validations", abap_count := abap_ifs,
                 modern_count := modern_ifs,
                 status := if modern_ifs ≥ abap_ifs then "ok" else "warning" }],
    warnings :=
      if modern_ifs < abap_ifs then ["Some ABAP validations may not be preserved"] else [],
    preserved_logic_count := abap_logic.length }

/-- Python `str.capitalize`: first character upper-cased, the rest
lower-cased. -/
def pyCapitalize (s : String) : String :=
  match s.data with
  | [] => ""
  | c :: rest => String.mk (c.toUpper :: rest.map Char.toLower)

/-- `ABAPAnalyzer.extract_data_model`.  The table names come from a
Python `set`; the embedding lists them deduplicated (set iteration
order is unspecified; no theorem below depends on this order). -/
def extract_data_model (code : String) (output_format : Json) : String :=
  let db_ops := extract_database_operations code
  let tables := (db_ops.map (fun op => op.table)).dedup
  if jeqStr output_format "typescript" then
    String.intercalate "\n" (["// Data Models\n"] ++ tables.flatMap (fun t =>
      ["interface " ++ pyCapitalize t ++ " \x7b",
       "  // TODO: Define fields from " ++ sapTableGet (strUpper t) "SAP table",
       "\x7d\n"]))
  else "// Unsupported format"

/-- The result dict of `parse_abap`: a `status` plus the `patterns`
sub-dict, whose four keys are present only for the matching
`extraction_type` values (`none` models an absent key).  The field
`vars` models the dict key `"variables"` (a reserved word in Lean). -/
structure ParseResult where
  status : String
  database : Option (List DbOp)
  vars : Option (List VarDecl)
  functions : Option (List FuncRec)
  business_logic : Option (List LogicRec)
deriving DecidableEq

/-- `ABAPAnalyzer.parse_abap`.  `extraction_type` is kept as a JSON
value: Python only ever compares it to string literals with `in`. -/
def parse_abap (code : String) (extraction_type : Json) : ParseResult :=
  { status := "success",
    database :=
      if jeqStr extraction_type "all" || jeqStr extraction_type "database" then
        some (extract_database_operations code)
      else none,
    vars :=
      if jeqStr extraction_type "all" || jeqStr extraction_type "variables" then
        some (extract_variables code)
      else none,
    functions :=
      if jeqStr extraction_type "all" || jeqStr extraction_type "functions" then
        some (extract_functions code)
      else none,
    business_logic :=
      if jeqStr extraction_type "all" || jeqStr extraction_type "business_logic" then
        some (extract_business_logic code)
      else none }

/-- Modelled from the spec: the complexity score of the consolidated
classifier (spec section 4.2) is not implemented under `src/` (only the
repository's test script reads it from the second analyzer); per the
spec it counts non-blank lines whose first non-whitespace character is
not the comment sigil `*`, divides by the granularity constant 20 and
clamps the result into `[1, 10]`. -/
def complexityScore (code : String) : Nat :=
  let ls := (pySplitNL code).filter (fun l =>
    pyStrip l ≠ "" && !pyStartsWith "*" (pyStrip l))
  min 10 (max 1 (ls.length / 20))

/-! ### JSON encoding of results (the shapes `json.dumps` receives) -/

/-- Member lookup in a JSON object's field list (first occurrence). -/
def jlookup (fields : List (String × Json)) (key : String) : Option Json :=
  (fields.find? (fun p => p.1 = key)).map (fun p => p.2)

/-- Whether a JSON value is an object with the given member. -/
def hasKey (j : Json) (key : String) : Bool :=
  match j with
  | .obj fs => (jlookup fs key).isSome
  | _ => false

/-- Whether a response carries a JSON-RPC style error object with an
integer `code` member. -/
def errorHasNumericCode (j : Json) : Bool :=
  match j with
  | .obj fs =>
    match jlookup fs "error" with
    | some (.obj efs) =>
      match jlookup efs "code" with
      | some (.num _) => true
      | _ => false
    | _ => false
  | _ => false

/-- `json.dumps` shape of one database-operation record. -/
def encodeDbOp (op : DbOp) : Json :=
  .obj ([("type", .str op.typ), ("table", .str op.table),
         ("sap_table_description", .str op.sap_table_description)]
    ++ (match op.fields with
        | some f => [("fields", Json.str f)]
        | none => []))

/-- `json.dumps` shape of one variable record. -/
def encodeVar (v : VarDecl) : Json :=
  .obj [("name", .str v.name), ("abap_type", .str v.abap_type),
        ("modern_type", .str v.modern_type)]

/-- `json.dumps` shape of one function record. -/
def encodeFunc (f : FuncRec) : Json :=
  .obj ([("name", .str f.name), ("type", .str f.typ)]
    ++ (match f.is_bapi with
        | some b => [("is_bapi", Json.bool b)]
        | none => [])
    ++ (match f.description with
        | some d => [("description", Json.str d)]
        | none => []))

/-- `json.dumps` shape of one business-logic record; the third key name
depends on the record kind, as in the source. -/
def encodeLogic (l : LogicRec) : Json :=
  .obj [("type", .str l.typ), ("pattern", .str l.patt),
        (if l.typ = "validation" then "condition"
         else if l.typ = "branching" then "variable" else "table", .str l.value)]

/-- `json.dumps` shape of a `parse_abap` result. -/
def encodeParseResult (r : ParseResult) : Json :=
  .obj [("status", .str r.status),
        ("patterns", .obj (
          (match r.database with
           | some l => [("database", Json.arr (l.map encodeDbOp))]
           | none => [])
          ++ (match r.vars with
              | some l => [("variables", Json.arr (l.map encodeVar))]
              | none => [])
          ++ (match r.functions with
              | some l => [("functions", Json.arr (l.map encodeFunc))]
              | none => [])
          ++ (match r.business_logic with
              | some l => [("business_logic", Json.arr (l.map encodeLogic))]
              | none => [])))]

/-- `json.dumps` shape of a `detect_sap_patterns` result. -/
def encodeSapPatterns (p : SapPatterns) : Json :=
  .obj [("bapis", .arr (p.bapis.map (fun b =>
          .obj [("pattern", .str b.1), ("description", .str b.2)]))),
        ("tables", .arr (p.tables.map (fun t =>
          .obj [("table", .str t.1), ("description", .str t.2)]))),
        ("modules", .arr (p.modules.map .str)),
        ("pricing_logic", .bool p.pricing_logic),
        ("authorization_checks", .bool p.authorization_checks)]

/-- `json.dumps` shape of a `validate_business_logic` result. -/
def encodeValidation (v : Validation) : Json :=
  .obj [("status", .str v.status),
        ("checks", .arr (v.checks.map (fun c =>
          .obj [("type", .str c.typ), ("abap_count", .num c.abap_count),
                ("modern_count", .num c.modern_count), ("status", .str c.status)]))),
        ("warnings", .arr (v.warnings.map .str)),
        ("preserved_logic_count", .num v.preserved_logic_count)]

/-! ### The MCP dispatcher (`handle_mcp_request`) and the stdio loop -/

/-- Python f-string rendering of the JSON value bound to `tool_name`
(`None`, bare string content, `repr`-style numbers and booleans; for
containers, which the message never receives in the theorems below, a
fixed placeholder stands in for Python's `repr`). -/
def pyShowJson : Json → String
  | .null => "None"
  | .bool b => if b then "True" else "False"
  | .num n => toString n
  | .str s => s
  | .arr _ => "[...]"
  | .obj _ => "\x7b...\x7d"

/-- `request.get(key)` rendered for the unknown-tool message. -/
def pyShowOpt : Option Json → String
  | none => "None"
  | some j => pyShowJson j

/-- `params.get(key, dflt)` where the call site accepts any JSON value;
raises (`.error`) only when `params` itself is not a dict. -/
def pgetJson (params : Json) (key : String) (dflt : Json) : Except String Json :=
  match params with
  | .obj fs => .ok ((jlookup fs key).getD dflt)
  | _ => .error "AttributeError: object has no attribute get"

/-- `params.get(key, dflt)` where the value is then used as a string
(fed to a regex or string operation): a present non-string value makes
the handler body raise, which the handler's `try` turns into an error
response. -/
def pgetStr (params : Json) (key : String) (dflt : String) : Except String String :=
  match params with
  | .obj fs =>
    match jlookup fs key with
    | none => .ok dflt
    | some (.str s) => .ok s
    | some _ => .error "TypeError: expected string or bytes-like object"
  | _ => .error "AttributeError: object has no attribute get"

/-- `handle_mcp_request`.  `.ok` is a returned response dict (including
the error responses produced by the handler's own `try/except` and the
unknown-tool branch); `.error` is an exception raised before the `try`
(a non-dict request), which the stdio loop catches. -/
def handle_mcp_request (request : Json) : Except String Json :=
  match request with
  | .obj fields =>
    let tool_name := jlookup fields "method"
    let params := (jlookup fields "params").getD (.obj [])
    let isTool : String → Bool := fun s =>
      match tool_name with
      | some (.str t) => t = s
      | _ => false
    if isTool "parse_abap" then
      .ok (match pgetStr params "code" "" with
        | .error e => .obj [("error", .str e)]
        | .ok code =>
          match pgetJson params "extractionType" (.str "all") with
          | .error e => .obj [("error", .str e)]
          | .ok et => .obj [("result", encodeParseResult (parse_abap code et))])
    else if isTool "detect_sap_patterns" then
      .ok (match pgetStr params "code" "" with
        | .error e => .obj [("error", .str e)]
        | .ok code => .obj [("result", encodeSapPatterns (detect_sap_patterns code))])
    else if isTool "generate_modern_equivalent" then
      .ok (match pgetStr params "abapCode" "" with
        | .error e => .obj [("error", .str e)]
        | .ok code =>
          match pgetJson params "targetLanguage" (.str "typescript") with
          | .error e => .obj [("error", .str e)]
          | .ok tl =>
            match pgetJson params "preserveComments" (.bool true) with
            | .error e => .obj [("error", .str e)]
            | .ok pc => .obj [("result", .str (generate_modern_equivalent code tl pc))])
    else if isTool "validate_business_logic" then
      .ok (match pgetStr params "originalAbap" "" with
        | .error e => .obj [("error", .str e)]
        | .ok oa =>
          match pgetStr params "modernCode" "" with
          | .error e => .obj [("error", .str e)]
          | .ok mc => .obj [("result", encodeValidation (validate_business_logic oa mc))])
    else if isTool "extract_data_model" then
      .ok (match pgetStr params "code" "" with
        | .error e => .obj [("error", .str e)]
        | .ok code =>
          match pgetJson params "outputFormat" (.str "typescript") with
          | .error e => .obj [("error", .str e)]
          | .ok fmt => .obj [("result", .str (extract_data_model code fmt))])
    else
      .ok (.obj [("error", .str ("Unknown tool: " ++ pyShowOpt tool_name))])
  | _ => .error "AttributeError: object has no attribute get"

/-- The fixed set of method names the dispatcher routes. -/
def supported_methods : List String :=
  ["parse_abap", "detect_sap_patterns", "generate_modern_equivalent",
   "validate_business_logic", "extract_data_model"]

/-- The response line printed for one non-empty input line: decode the
line (a model of `json.loads`), dispatch, and turn any exception into
`{'error': str(e)}` exactly as the loop's `except` clause does. -/
def lineResponse (decode : String → Except String Json) (line : String) : Json :=
  match decode line with
  | .error e => .obj [("error", .str e)]
  | .ok req =>
    match handle_mcp_request req with
    | .error e => .obj [("error", .str e)]
    | .ok resp => resp

/-- The `__main__` stdio loop over the available input lines: reading an
empty line breaks out (`if not line: break`), otherwise exactly one
response value is emitted per line; end of the list is `EOFError`.
`decode` abstracts `json.loads` (any total decoder returning either a
value or a raised message). -/
def serverLoop (decode : String → Except String Json) : List String → List Json
  | [] => []
  | line :: rest =>
    if line = "" then []
    else lineResponse decode line :: serverLoop decode rest

/-- A stand-in for `json.loads` usable at concrete inputs: it rejects
every line the way `json.loads` rejects non-JSON text.  (The theorems
about the loop hold for every decoder; this one only feeds witnesses.) -/
def jsonLoadsStub : String → Except String Json :=
  fun _ => .error "Expecting value: line 1 column 1 (char 0)"

/-! ### Helper lemmas -/

/-- The first element surviving `dropWhile` fails the predicate. -/
theorem dropWhile_first_false {α : Type} {p : α → Bool} :
    ∀ (l : List α) (a : α) (t : List α), l.dropWhile p = a :: t → p a = false
  | [], a, t, h => by simp [List.dropWhile] at h
  | c :: cs, a, t, h => by
    by_cases hc : p c = true
    · rw [List.dropWhile_cons_of_pos hc] at h
      exact dropWhile_first_false cs a t h
    · rw [List.dropWhile_cons_of_neg hc] at h
      obtain ⟨rfl, -⟩ := List.cons.inj h
      simpa using hc

/-- Stripping an already-stripped character list changes nothing. -/
theorem pyStripL_idem (l : List Char) : pyStripL (pyStripL l) = pyStripL l := by
  unfold pyStripL
  have h1 : ((l.dropWhile isSpaceChar).rdropWhile isSpaceChar).dropWhile isSpaceChar
      = (l.dropWhile isSpaceChar).rdropWhile isSpaceChar := by
    rcases h : (l.dropWhile isSpaceChar).rdropWhile isSpaceChar with _ | ⟨a, t⟩
    · rfl
    · obtain ⟨s, hs⟩ := h ▸ List.rdropWhile_prefix isSpaceChar (l.dropWhile isSpaceChar)
      have hfalse : isSpaceChar a = false :=
        dropWhile_first_false l a (t ++ s) (by simpa using hs.symm)
      simp [List.dropWhile_cons, hfalse]
  rw [h1, List.rdropWhile_idempotent]

/-- `str.strip` is idempotent. -/
theorem pyStrip_idem (s : String) : pyStrip (pyStrip s) = pyStrip s :=
  congrArg String.mk (pyStripL_idem s.data)

/-- Appending the empty string is the identity. -/
theorem str_append_empty (s : String) : s ++ "" = s := by
  cases s with
  | mk l => exact congrArg String.mk (List.append_nil l)

/-- The first-match-wins loop of `_convert_abap_type` returns the
default when no fragment occurs in the lower-cased token. -/
theorem convert_go_of_none (t : String) :
    ∀ l : List (String × String), (∀ p ∈ l, substrOf p.1 (strLower t) = false) →
      convert_abap_type_go t l = "any"
  | [], _ => rfl
  | (a, b) :: rest, h => by
    have ha := h (a, b) (List.mem_cons_self _ _)
    simp only [convert_abap_type_go, ha, Bool.false_eq_true, if_false]
    exact convert_go_of_none t rest (fun p hp => h p (List.mem_cons_of_mem _ hp))

/-- First match wins in the `_convert_abap_type` loop: if the fragment
table splits into a prefix of non-occurring fragments followed by an
occurring fragment, the loop returns the latter's mapped name. -/
theorem convert_go_first (t ab ts : String) :
    ∀ (l1 l2 : List (String × String)),
      (∀ p ∈ l1, substrOf p.1 (strLower t) = false) → substrOf ab (strLower t) = true →
      convert_abap_type_go t (l1 ++ (ab, ts) :: l2) = ts
  | [], l2, _, hm => by simp [convert_abap_type_go, hm]
  | q :: l1, l2, h, hm => by
    have hq : substrOf q.1 (strLower t) = false := h q (List.mem_cons_self _ _)
    obtain ⟨q1, q2⟩ := q
    simp only [List.cons_append, convert_abap_type_go, hq, Bool.false_eq_true, if_false]
    exact convert_go_first t ab ts l1 l2 (fun p hp => h p (List.mem_cons_of_mem _ hp)) hm

/-- The loop body of `serverLoop` over lines that are all non-empty is
a per-line map. -/
theorem serverLoop_eq_map (decode : String → Except String Json) :
    ∀ lines : List String, (∀ l ∈ lines, l ≠ "") →
      serverLoop decode lines = lines.map (lineResponse decode)
  | [], _ => rfl
  | a :: t, h => by
    have ha : ¬ a = "" := h a (List.mem_cons_self _ _)
    simp only [serverLoop, if_neg ha, List.map_cons]
    rw [serverLoop_eq_map decode t (fun l hl => h l (List.mem_cons_of_mem _ hl))]

/-- Number of pattern occurrences feeding `_extract_database_operations`:
SELECT matches plus the matches of the three write patterns. -/
def db_occurrence_count (code : String) : Nat :=
  (finditer selectRE code).length + (finditer (opRE "INSERT") code).length
    + (finditer (opRE "UPDATE") code).length + (finditer (opRE "MODIFY") code).length

/-- Number of validation-kind business rule records of a text. -/
def validation_count (code : String) : Nat :=
  ((extract_business_logic code).filter (fun l => l.typ = "validation")).length

/-! ### Claim theorems -/

/-- Claim C1 (code bug): contrary to the documented JSON-RPC envelope,
the dispatcher's responses carry no `jsonrpc` member, never echo the
request `id`, and a failure carries a bare message string instead of an
`error` object with a numeric `code`.  Evaluated at the repository's own
test request (method `analyzeCode`, `id` 1) and at a success case. -/
theorem c1_no_jsonrpc_envelope :
    handle_mcp_request (Json.obj
        [("jsonrpc", Json.str "2.0"), ("id", Json.num 1),
         ("method", Json.str "analyzeCode"),
         ("params", Json.obj [("code", Json.str "REPORT z.")])])
      = Except.ok (Json.obj [("error", Json.str "Unknown tool: analyzeCode")])
    ∧ hasKey (Json.obj [("error", Json.str "Unknown tool: analyzeCode")]) "jsonrpc" = false
    ∧ hasKey (Json.obj [("error", Json.str "Unknown tool: analyzeCode")]) "id" = false
    ∧ errorHasNumericCode (Json.obj [("error", Json.str "Unknown tool: analyzeCode")]) = false
    ∧ handle_mcp_request (Json.obj [("method", Json.str "parse_abap"), ("id", Json.num 1)])
      = Except.ok (Json.obj [("result", encodeParseResult (parse_abap "" (Json.str "all")))])
    ∧ hasKey (Json.obj [("result", encodeParseResult (parse_abap "" (Json.str "all")))]) "jsonrpc"
      = false
    ∧ hasKey (Json.obj [("result", encodeParseResult (parse_abap "" (Json.str "all")))]) "id"
      = false :=
  ⟨rfl, rfl, rfl, rfl, rfl, rfl, rfl⟩

/-- Claim C2, counterexample: an empty input line terminates the loop
before end of input, so a two-line input with a leading empty line gets
zero response lines, not two. -/
theorem c2_counterexample :
    serverLoop jsonLoadsStub ["", "x"] = [] ∧ (["", "x"] : List String).length = 2 :=
  ⟨rfl, rfl⟩

/-- Claim C2 as amended: for every decoder and every list of NON-EMPTY
input lines, the loop emits exactly one response per line (any decode
or dispatch failure is contained to that line's response), and it runs
to the end of the input. -/
theorem c2_amended (decode : String → Except String Json) (lines : List String)
    (h : ∀ l ∈ lines, l ≠ "") :
    serverLoop decode lines = lines.map (lineResponse decode)
    ∧ (serverLoop decode lines).length = lines.length := by
  have main := serverLoop_eq_map decode lines h
  exact ⟨main, by rw [main, List.length_map]⟩

/-- Witness for C2 as amended at a concrete non-empty line. -/
theorem c2_amended_witness :
    (∀ l ∈ (["x"] : List String), l ≠ "")
    ∧ serverLoop jsonLoadsStub ["x"] = (["x"] : List String).map (lineResponse jsonLoadsStub) :=
  ⟨by decide, (c2_amended jsonLoadsStub ["x"] (by decide)).1⟩

/-- Claim C3: `parse_abap` always reports status `success` (it never
fails), on empty text every extraction category is present and empty,
and the (spec-modelled) complexity score of empty text is 1. -/
theorem c3_empty_extraction :
    (∀ (code : String) (et : Json), (parse_abap code et).status = "success")
    ∧ parse_abap "" (Json.str "all")
      = { status := "success", database := some [], vars := some [],
          functions := some [], business_logic := some [] }
    ∧ complexityScore "" = 1 :=
  ⟨fun _ _ => rfl, rfl, rfl⟩

/-- Claim C4, counterexample: the unknown-method error response is a
bare string; it names the method but carries no numeric error code. -/
theorem c4_counterexample :
    handle_mcp_request (Json.obj [("method", Json.str "frobnicate")])
      = Except.ok (Json.obj [("error", Json.str "Unknown tool: frobnicate")])
    ∧ errorHasNumericCode (Json.obj [("error", Json.str "Unknown tool: frobnicate")]) = false :=
  ⟨rfl, rfl⟩

/-- Claim C4 as amended: a request whose method name is outside the
supported set is answered by `{'error': 'Unknown tool: <method>'}`
(no handler result, no numeric code), and that message contains the
method name verbatim. -/
theorem c4_amended (fields : List (String × Json)) (m : String)
    (hm : jlookup fields "method" = some (Json.str m))
    (hns : m ∉ supported_methods) :
    handle_mcp_request (Json.obj fields)
      = Except.ok (Json.obj [("error", Json.str ("Unknown tool: " ++ m))])
    ∧ ∃ pre suf, "Unknown tool: " ++ m = pre ++ m ++ suf := by
  simp only [supported_methods, List.mem_cons, List.not_mem_nil, or_false] at hns
  push_neg at hns
  obtain ⟨h1, h2, h3, h4, h5⟩ := hns
  refine ⟨?_, "Unknown tool: ", "", (str_append_empty _).symm⟩
  simp only [handle_mcp_request, hm, h1, h2, h3, h4, h5, if_false]
  rfl

/-- Witness for C4 as amended at a concrete unsupported method name. -/
theorem c4_amended_witness :
    jlookup [("method", Json.str "foo")] "method" = some (Json.str "foo")
    ∧ "foo" ∉ supported_methods
    ∧ handle_mcp_request (Json.obj [("method", Json.str "foo")])
      = Except.ok (Json.obj [("error", Json.str ("Unknown tool: " ++ "foo"))]) :=
  ⟨rfl, by decide, (c4_amended [("method", Json.str "foo")] "foo" rfl (by decide)).1⟩

/-- Claim C5, counterexample: module detection does not choose exactly
one tag by precedence with default `CUSTOM`: co-occurring sales and
purchasing tables yield two module tags, and text without known tables
yields no tag at all. -/
theorem c5_counterexample :
    (detect_sap_patterns "VBAK EKKO").modules.length = 2
    ∧ (detect_sap_patterns "no known tables here").modules = [] := by
  constructor <;> decide

/-- Claim C5 as amended: module detection collects one tag per detected
known table through the two-letter-prefix map, deduplicated, with no
precedence and no default: text containing `VBAK` always includes `SD`
among the modules, every module is one of `SD`/`MM`/`FI` (never
`CUSTOM`), and the list has no duplicates. -/
theorem c5_amended (code : String) :
    (containsWordCI "VBAK" code = true → "SD" ∈ (detect_sap_patterns code).modules)
    ∧ (∀ m ∈ (detect_sap_patterns code).modules, m = "SD" ∨ m = "MM" ∨ m = "FI")
    ∧ (detect_sap_patterns code).modules.Nodup := by
  refine ⟨?_, ?_, ?_⟩
  · intro h
    simp only [detect_sap_patterns, List.mem_dedup, List.mem_filter]
    refine ⟨List.mem_map.mpr ⟨("VBAK", "Sales Document Header"), ?_, by decide⟩, by decide⟩
    exact List.mem_filter.mpr ⟨by decide, h⟩
  · intro m hm
    simp only [detect_sap_patterns, List.mem_dedup, List.mem_filter, List.mem_map] at hm
    obtain ⟨⟨p, hp, rfl⟩, -⟩ := hm
    have hp' : p ∈ SAP_TABLES := hp.1
    simp only [SAP_TABLES, List.mem_cons, List.not_mem_nil, or_false] at hp'
    rcases hp' with rfl | rfl | rfl | rfl | rfl | rfl | rfl | rfl <;> decide
  · exact List.nodup_dedup _

/-- Witness for C5 as amended at a concrete text containing `VBAK`. -/
theorem c5_amended_witness :
    containsWordCI "VBAK" "TABLES: VBAK." = true
    ∧ "SD" ∈ (detect_sap_patterns "TABLES: VBAK.").modules :=
  ⟨by decide, (c5_amended "TABLES: VBAK.").1 (by decide)⟩

/-- Claim C6: every database-operation record's description is the
case-insensitive (upper-cased) lookup of its own table name with
default `Unknown`; its kind is one of SELECT/INSERT/UPDATE/MODIFY; it
carries a field list exactly when it is a SELECT, and that field list
is whitespace-trimmed; and the number of records equals the number of
pattern occurrences (no deduplication). -/
theorem c6_database_records (code : String) (op : DbOp)
    (h : op ∈ extract_database_operations code) :
    (op.sap_table_description = sapTableGet (strUpper op.table) "Unknown"
      ∧ (op.typ = "SELECT" ∨ op.typ = "INSERT" ∨ op.typ = "UPDATE" ∨ op.typ = "MODIFY")
      ∧ (op.fields.isSome ↔ op.typ = "SELECT")
      ∧ (∀ f, op.fields = some f → pyStrip f = f))
    ∧ (extract_database_operations code).length = db_occurrence_count code := by
  constructor
  · simp only [extract_database_operations, List.mem_append, db_op_records] at h
    rcases h with ((hs | hi) | hu) | hm
    · obtain ⟨m, -, rfl⟩ := List.mem_map.mp hs
      exact ⟨rfl, Or.inl rfl, by simp, fun f hf => by
        obtain rfl : pyStrip (cap m 0) = f := Option.some.inj hf
        exact pyStrip_idem _⟩
    · obtain ⟨m, -, rfl⟩ := List.mem_map.mp hi
      exact ⟨rfl, Or.inr (Or.inl rfl), by simp, fun f hf => by simp at hf⟩
    · obtain ⟨m, -, rfl⟩ := List.mem_map.mp hu
      exact ⟨rfl, Or.inr (Or.inr (Or.inl rfl)), by simp, fun f hf => by simp at hf⟩
    · obtain ⟨m, -, rfl⟩ := List.mem_map.mp hm
      exact ⟨rfl, Or.inr (Or.inr (Or.inr rfl)), by simp, fun f hf => by simp at hf⟩
  · simp only [extract_database_operations, db_op_records, db_occurrence_count,
      List.length_append, List.length_map]
    try omega

/-- Witness for C6 at a concrete SELECT. -/
theorem c6_witness :
    ({ typ := "SELECT", table := "VBAK", sap_table_description := "Sales Document Header",
       fields := some "a" } : DbOp) ∈ extract_database_operations "SELECT a FROM VBAK"
    ∧ ({ typ := "SELECT", table := "VBAK", sap_table_description := "Sales Document Header",
         fields := some "a" } : DbOp).sap_table_description
      = sapTableGet (strUpper "VBAK") "Unknown" :=
  ⟨by decide, (c6_database_records "SELECT a FROM VBAK" _ (by decide)).1.1⟩

/-- Claim C7, counterexample: the colon is not optional — a DATA
declaration without `DATA:` yields no record, and of a colon-prefixed
batch only the first declaration yields a record. -/
theorem c7_counterexample :
    extract_variables "DATA lv_x TYPE i." = []
    ∧ extract_variables "DATA: a TYPE i, b TYPE f."
      = [{ name := "a", abap_type := "i", modern_type := "number" }] := by
  constructor <;> decide

/-- Claim C7 as amended: every variable record extracted from a
(mandatory) `DATA: <name> TYPE <type>` occurrence carries the mapped
name computed from its own raw type token; there is one record per
pattern occurrence; and the mapping is a first-match-wins substring
lookup over the ordered fragment table with default `any`. -/
theorem c7_amended (code : String) (v : VarDecl) (h : v ∈ extract_variables code) :
    v.modern_type = convert_abap_type v.abap_type
    ∧ (extract_variables code).length = (finditer dataRE code).length
    ∧ (∀ t : String, (∀ p ∈ type_map, substrOf p.1 (strLower t) = false) →
        convert_abap_type t = "any")
    ∧ (∀ (t ab ts : String) (l1 l2 : List (String × String)),
        type_map = l1 ++ (ab, ts) :: l2 →
        (∀ p ∈ l1, substrOf p.1 (strLower t) = false) → substrOf ab (strLower t) = true →
        convert_abap_type t = ts) := by
  refine ⟨?_, ?_, ?_, ?_⟩
  · simp only [extract_variables] at h
    obtain ⟨m, -, rfl⟩ := List.mem_map.mp h
    rfl
  · simp [extract_variables]
  · exact fun t ht => convert_go_of_none t type_map ht
  · intro t ab ts l1 l2 hsplit hpre hmatch
    unfold convert_abap_type
    rw [hsplit]
    exact convert_go_first t ab ts l1 l2 hpre hmatch

/-- Witness for C7 as amended at a concrete declaration. -/
theorem c7_amended_witness :
    ({ name := "lv_x", abap_type := "i", modern_type := "number" } : VarDecl)
      ∈ extract_variables "DATA: lv_x TYPE i."
    ∧ ({ name := "lv_x", abap_type := "i", modern_type := "number" } : VarDecl).modern_type
      = convert_abap_type
          ({ name := "lv_x", abap_type := "i", modern_type := "number" } : VarDecl).abap_type :=
  ⟨by decide, (c7_amended "DATA: lv_x TYPE i." _ (by decide)).1⟩

/-- Claim C8: the validation check reports `ok` exactly when the
candidate's case-insensitive `if`-token count is at least the number of
validation-kind records of the original, otherwise it reports
`warning` and appends the advisory message. -/
theorem c8_validation_status (original modern : String) :
    ((validate_business_logic original modern).checks.map Check.status
      = [if validation_count original ≤ count_if_tokens modern then "ok" else "warning"])
    ∧ ((validate_business_logic original modern).checks.map Check.status = ["ok"]
      ↔ validation_count original ≤ count_if_tokens modern)
    ∧ ((validate_business_logic original modern).warnings
      = if count_if_tokens modern < validation_count original
        then ["Some ABAP validations may not be preserved"] else [])
    ∧ ((validate_business_logic original modern).warnings ≠ []
      ↔ count_if_tokens modern < validation_count original) := by
  have hA : (validate_business_logic original modern).checks.map Check.status
      = [if validation_count original ≤ count_if_tokens modern then "ok" else "warning"] := rfl
  have hW : (validate_business_logic original modern).warnings
      = if count_if_tokens modern < validation_count original
        then ["Some ABAP validations may not be preserved"] else [] := rfl
  refine ⟨hA, ?_, hW, ?_⟩
  · rw [hA]
    by_cases hc : validation_count original ≤ count_if_tokens modern
    · simp [hc]
    · simp [hc]
  · rw [hW]
    by_cases hl : count_if_tokens modern < validation_count original
    · simp [hl]
    · simp [hl]

/-- Claim C9: for target language `python` the generated text is a
fixed placeholder depending only on the preserve-comments flag, never
on the input text — unlike target `typescript`, which embeds extracted
features (shown at a concrete pair of inputs). -/
theorem c9_python_ignores_input :
    (∀ (a b : String) (pc : Json),
      generate_modern_equivalent a (Json.str "python") pc
        = generate_modern_equivalent b (Json.str "python") pc)
    ∧ generate_modern_equivalent "DATA: x TYPE i" (Json.str "typescript") (Json.bool true)
      ≠ generate_modern_equivalent "" (Json.str "typescript") (Json.bool true) :=
  ⟨fun _ _ _ => rfl, by decide⟩

/-- Claim C10: for each recognized method, a request with no `params`
member succeeds using the documented defaults — empty code strings,
extraction type `all`, target language `typescript`, preserve-comments
true, output format `typescript`; in particular `parse_abap` without
parameters equals the analysis of empty text. -/
theorem c10_missing_params_defaults :
    handle_mcp_request (Json.obj [("method", Json.str "parse_abap")])
      = Except.ok (Json.obj [("result", encodeParseResult (parse_abap "" (Json.str "all")))])
    ∧ handle_mcp_request (Json.obj [("method", Json.str "detect_sap_patterns")])
      = Except.ok (Json.obj [("result", encodeSapPatterns (detect_sap_patterns ""))])
    ∧ handle_mcp_request (Json.obj [("method", Json.str "generate_modern_equivalent")])
      = Except.ok (Json.obj [("result",
          Json.str (generate_modern_equivalent "" (Json.str "typescript") (Json.bool true)))])
    ∧ handle_mcp_request (Json.obj [("method", Json.str "validate_business_logic")])
      = Except.ok (Json.obj [("result", encodeValidation (validate_business_logic "" ""))])
    ∧ handle_mcp_request (Json.obj [("method", Json.str "extract_data_model")])
      = Except.ok (Json.obj [("result",
          Json.str (extract_data_model "" (Json.str "typescript")))]) :=
  ⟨rfl, rfl, rfl, rfl, rfl⟩
